import Mathlib

/-!
Verification of the WhatsApp healthcare backend core against its
specification.  The Python source is shallowly embedded: JSON-like Python
values become the inductive `Json`, Python dict/list accessors become
functions on `Json` that return `Except` (a raised exception becomes
`Except.error`), and the network transports are parameters supplied by the
caller of each embedded function.
-/

/-- A Python value as it appears in webhook payloads: `None`, booleans,
strings, integers, lists and string-keyed dicts. -/
inductive Json where
  | null : Json
  | bool (b : Bool) : Json
  | str (s : String) : Json
  | num (n : Int) : Json
  | arr (xs : List Json) : Json
  | obj (kvs : List (String × Json)) : Json

/-- Python truthiness (`if x:`): `None`, `False`, `""`, `0`, `[]`, `{}` are
falsy, everything else is truthy. -/
def Json.truthy : Json → Bool
  | .null => false
  | .bool b => b
  | .str s => s.length != 0
  | .num n => n != 0
  | .arr xs => xs.length != 0
  | .obj kvs => kvs.length != 0

/-- Python `x.get(k, d)`: on a dict, the stored value when the key is
present and `d` otherwise; on any other value an `AttributeError` is
raised (`.get` does not exist). -/
def Json.getD (j : Json) (k : String) (d : Json) : Except String Json :=
  match j with
  | .obj kvs => .ok ((kvs.lookup k).getD d)
  | _ => .error "AttributeError: no attribute get"

/-- Python `x.get(k)` (single-argument form): default `None`. -/
def Json.pyGet (j : Json) (k : String) : Except String Json :=
  j.getD k .null

/-- Python `x[i]` for a non-negative index: list indexing, or string
indexing (yielding a one-character string); out of range raises
`IndexError`, any other receiver raises `TypeError`. -/
def Json.index (j : Json) (i : Nat) : Except String Json :=
  match j with
  | .arr xs =>
    match xs.get? i with
    | some x => .ok x
    | none => .error "IndexError: list index out of range"
  | .str s =>
    match s.data.get? i with
    | some c => .ok (.str (String.mk [c]))
    | none => .error "IndexError: string index out of range"
  | _ => .error "TypeError: not subscriptable"

/-- The value stored under key `k` when the receiver is a dict holding it;
`none` otherwise.  Specification-side accessor used to phrase structural
hypotheses about payloads. -/
def Json.lookupKey : Json → String → Option Json
  | .obj kvs, k => kvs.lookup k
  | _, _ => none

/-- The first element of a list value, `none` for anything else.
Specification-side accessor. -/
def Json.arrHead : Json → Option Json
  | .arr (x :: _) => some x
  | _ => none

/-! ### Python string primitives (ASCII behaviour) -/

/-- Auxiliary for `pyIn`: whether `pat` occurs as a contiguous sublist. -/
def substrAux (pat : List Char) : List Char → Bool
  | [] => pat.isEmpty
  | c :: cs => pat.isPrefixOf (c :: cs) || substrAux pat cs

/-- Python `pat in s`: substring containment. -/
def pyIn (pat s : String) : Bool :=
  substrAux pat.data s.data

/-- Python `s.lower()` (ASCII letters; the source only matches ASCII
keywords). -/
def pyLower (s : String) : String :=
  String.mk (s.data.map Char.toLower)

/-- Python `s.strip()`: remove leading and trailing whitespace. -/
def pyStrip (s : String) : String :=
  String.mk (((s.data.dropWhile Char.isWhitespace).reverse.dropWhile
    Char.isWhitespace).reverse)

/-- Python truthiness of a string: non-empty. -/
def pyTruthyStr (s : String) : Bool :=
  s.length != 0

/-- Python `s.replace(c, "")` for a one-character pattern: every occurrence
of `c` is removed. -/
def pyRemoveAll (c : Char) (s : String) : String :=
  String.mk (s.data.filter (fun a => a != c))

/-- The code points of a string, standing for the bytes handed to
`secrets.compare_digest` (the admin keys are ASCII configuration values). -/
def strBytes (s : String) : List Nat :=
  s.data.map Char.toNat

/-- Python `x[:50]`: slicing succeeds on strings and lists (the only
sliceable values among webhook payloads) and raises `TypeError` on any
other value, such as `None`, a number, a boolean or a dict. -/
def pySlice50 (j : Json) : Except String Json :=
  match j with
  | .str s => .ok (.str (String.mk (s.data.take 50)))
  | .arr xs => .ok (.arr (xs.take 50))
  | _ => .error "TypeError: value is not sliceable"

/-! ### `app/services/whatsapp.py` — `UnifiedWhatsAppService` -/

/-- The recipient normalization inlined in `send_text_message`:
`to.replace("+", "").replace(" ", "").replace("-", "")`, then prepend `+`
when the result does not start with `+` (`startswith("+")` is a check on
the first character). -/
def normalizeRecipient (to_ : String) : String :=
  let to_clean := pyRemoveAll '-' (pyRemoveAll ' ' (pyRemoveAll '+' to_))
  match to_clean.data with
  | '+' :: _ => to_clean
  | _ => "+" ++ to_clean

/-- An HTTP response as `send_text_message` observes it: a status code and
the outcome of `response.json()` (which raises when the body is not valid
JSON). -/
structure HttpResponse where
  status_code : Nat
  jsonBody : Except String Json

/-- The payload built by `send_text_message` for the gateway. -/
def payloadFor (to_ text : String) : Json :=
  .obj [("messaging_product", .str "whatsapp"),
        ("to", .str (normalizeRecipient to_)),
        ("type", .str "text"),
        ("text", .obj [("body", .str text)])]

/-- `UnifiedWhatsAppService.send_text_message`.  The HTTP transport
(`self.client.post`) is the parameter `post`; a transport-level exception
is its `.error` outcome.  A 2xx status returns the decoded body; any other
status or any exception inside the `try` is converted to a
`{"success": False, "error": ...}` value by the source's handlers. -/
def send_text_message (post : Json → Except String HttpResponse)
    (to_ text : String) : Json :=
  let payload := payloadFor to_ text
  match post payload with
  | .ok response =>
    if 200 ≤ response.status_code ∧ response.status_code < 300 then
      match response.jsonBody with
      | .ok body => body
      | .error e => .obj [("success", .bool false), ("error", .str e)]
    else
      match response.jsonBody with
      | .ok error_data => .obj [("success", .bool false), ("error", error_data)]
      | .error e => .obj [("success", .bool false), ("error", .str e)]
  | .error e => .obj [("success", .bool false), ("error", .str e)]

/-- The `send_text_message` call as `process_webhook` makes it: the
recipient argument is the raw `from` field of the parsed record, which may
be any value, and `to.replace(...)` — evaluated before the `try` block of
`send_text_message` — raises `AttributeError` when it is not a string.
That exception escapes `send_text_message` (only the code inside its `try`
is shielded) and is caught by the caller. -/
def send_text_message_dyn (post : Json → Except String HttpResponse)
    (to_ : Json) (text : String) : Except String Json :=
  match to_ with
  | .str s => .ok (send_text_message post s text)
  | _ => .error "AttributeError: no attribute replace"

/-- The record built by `parse_webhook_message`: message id, sender,
timestamp, type, text body and contact display name, each the raw value
read from the payload. -/
structure NormalizedMessage where
  message_id : Json
  sender : Json
  timestamp : Json
  type : Json
  text : Json
  contact_name : Json

/-- The body of `parse_webhook_message` inside its `try`: each Python
accessor that can raise is an `Except` step, each `if not x: return None`
is an early `.ok none`. -/
def parseInner (data : Json) : Except String (Option NormalizedMessage) :=
  match data.getD "entry" (.arr []) with
  | .error e => .error e
  | .ok entries =>
  if !entries.truthy then .ok none else
  match entries.index 0 with
  | .error e => .error e
  | .ok entry =>
  match entry.getD "changes" (.arr []) with
  | .error e => .error e
  | .ok changes =>
  if !changes.truthy then .ok none else
  match changes.index 0 with
  | .error e => .error e
  | .ok change0 =>
  match change0.getD "value" (.obj []) with
  | .error e => .error e
  | .ok value =>
  match value.getD "messages" (.arr []) with
  | .error e => .error e
  | .ok messages =>
  match value.getD "contacts" (.arr []) with
  | .error e => .error e
  | .ok contacts =>
  if !messages.truthy then .ok none else
  match messages.index 0 with
  | .error e => .error e
  | .ok message =>
  match (if contacts.truthy then contacts.index 0 else .ok (.obj [])) with
  | .error e => .error e
  | .ok contact =>
  match message.pyGet "id" with
  | .error e => .error e
  | .ok message_id =>
  match message.pyGet "from" with
  | .error e => .error e
  | .ok sender =>
  match message.pyGet "timestamp" with
  | .error e => .error e
  | .ok timestamp =>
  match message.pyGet "type" with
  | .error e => .error e
  | .ok mtype =>
  match message.getD "text" (.obj []) with
  | .error e => .error e
  | .ok textObj =>
  match textObj.getD "body" (.str "") with
  | .error e => .error e
  | .ok text =>
  match contact.getD "profile" (.obj []) with
  | .error e => .error e
  | .ok profile =>
  match profile.getD "name" (.str "Unknown") with
  | .error e => .error e
  | .ok contact_name =>
  .ok (some ⟨message_id, sender, timestamp, mtype, text, contact_name⟩)

/-- `UnifiedWhatsAppService.parse_webhook_message`: the `try` body with the
`except` handler that turns any raised exception into `None`. -/
def parse_webhook_message (data : Json) : Option NormalizedMessage :=
  match parseInner data with
  | .ok r => r
  | .error _ => none

/-- Specification-side predicate: the nested path
`entry[0].changes[0].value.messages` exists and holds a non-empty list. -/
def hasUserMessages (data : Json) : Bool :=
  match (((((data.lookupKey "entry").bind Json.arrHead).bind
      (Json.lookupKey · "changes")).bind Json.arrHead).bind
      (Json.lookupKey · "value")).bind (Json.lookupKey · "messages") with
  | some (.arr (_ :: _)) => true
  | _ => false

/-! ### `app/services/message_processor.py` — `MessageProcessor` -/

/-- The welcome/menu reply of the greeting branch. -/
def greetingReply : String :=
  "👋 Hello! Welcome to Healthcare Assistant.\n\nI can help you with:\n• Symptom checking\n• Health information\n• Emergency guidance\n• Find hospitals\n• Medicine information\n\nHow can I assist you today?"

/-- The emergency-guidance reply; interpolates `settings.emergency_number`. -/
def emergencyReply (emergency_number : String) : String :=
  "🚨 EMERGENCY ASSISTANCE\n\nIf this is a medical emergency:\n📞 Call " ++
    emergency_number ++
    " immediately\n\nFor urgent care:\n• Stay calm\n• Note symptoms\n• Contact nearest hospital\n\nReply with your symptoms for immediate guidance."

/-- The symptom-checker prompt. -/
def symptomReply : String :=
  "🏥 SYMPTOM CHECKER\n\nPlease describe your symptoms in detail:\n• When did they start?\n• How severe are they? (1-10)\n• Any other symptoms?\n\nI\x27ll provide guidance based on your symptoms.\n\n⚠️ This is not a diagnosis. Seek medical care if symptoms worsen."

/-- The medicine-information prompt. -/
def medicineReply : String :=
  "💊 MEDICINE INFORMATION\n\nPlease provide:\n• Medicine name\n• Your question about it\n\nI\x27ll provide information on:\n• Usage instructions\n• Common side effects\n• Precautions\n\n⚠️ Always consult your doctor before taking any medication."

/-- The hospital/clinic-finder prompt. -/
def facilityReply : String :=
  "🏥 FIND HEALTHCARE FACILITIES\n\nTo find nearby hospitals/clinics:\n• Share your location\n• Or tell me your area/city\n\nI\x27ll help you find:\n• Nearest hospitals\n• Specialist clinics\n• Emergency centers"

/-- The generic menu fallback. -/
def defaultReply : String :=
  "I\x27m here to help! You can ask me about:\n\n🏥 Health symptoms\n💊 Medicine information\n🚨 Emergency guidance\n🏥 Find hospitals\n💡 Health tips\n\nWhat would you like to know?"

/-- The apology returned by `generate_response`'s `except` handler. -/
def errorReply : String :=
  "Sorry, I encountered an error. Please try again."

/-- `MessageProcessor.generate_response`.  The message reaching it is the
raw `text` field of the parsed record, so it may be any value:
`message.lower()` raises `AttributeError` on a non-string and the `except`
handler returns the apology reply.  On a string it lower-cases, strips,
and tests the keyword categories in source order with substring
matching. -/
def generate_response (emergency_number : String) (message : Json) : String :=
  match message with
  | .str s =>
    let message_lower := pyStrip (pyLower s)
    if ["hi", "hello", "hey", "namaste"].any (fun greet => pyIn greet message_lower) then
      greetingReply
    else if ["emergency", "urgent", "critical", "help"].any (fun word => pyIn word message_lower) then
      emergencyReply emergency_number
    else if ["symptom", "pain", "fever", "cough", "headache"].any (fun word => pyIn word message_lower) then
      symptomReply
    else if ["medicine", "medication", "drug", "tablet"].any (fun word => pyIn word message_lower) then
      medicineReply
    else if ["hospital", "clinic", "doctor", "nearby"].any (fun word => pyIn word message_lower) then
      facilityReply
    else
      defaultReply
  | _ => errorReply

/-- The ordered keyword categories exactly as the specification lists
them: greeting, emergency, symptom, medicine, facility, each with its
canned reply. -/
def routeCategories (emergency_number : String) : List (List String × String) :=
  [(["hi", "hello", "hey", "namaste"], greetingReply),
   (["emergency", "urgent", "critical", "help"], emergencyReply emergency_number),
   (["symptom", "pain", "fever", "cough", "headache"], symptomReply),
   (["medicine", "medication", "drug", "tablet"], medicineReply),
   (["hospital", "clinic", "doctor", "nearby"], facilityReply)]

/-- The reply generator as the specification words it: normalize by
lower-casing and trimming, test the ordered categories, first match wins,
generic menu fallback otherwise. -/
def route_spec (emergency_number : String) (text : String) : String :=
  let t := pyStrip (pyLower text)
  match (routeCategories emergency_number).find?
      (fun cat => cat.1.any (fun k => pyIn k t)) with
  | some cat => cat.2
  | none => defaultReply

/-- `MessageProcessor.process_webhook`.  The HTTP transport of the shared
WhatsApp service is the parameter `post`; the returned `Nat` counts how
many network send attempts (calls of `post`) the delivery makes.  The
body mirrors the source `try` block: a falsy parse result returns
`{"status": "no_message"}`; the logging line then slices the raw text
(`message_text[:50]`), so a non-sliceable text value raises `TypeError`;
the reply is routed and sent via `send_text_message` (whose recipient
normalization raises on a non-string sender); and the `except` handler
converts any exception raised in the body to `{"status": "error",
"error": str(e)}` — with zero network attempts, since both raise points
precede the transport call. -/
def process_webhook (emergency_number : String)
    (post : Json → Except String HttpResponse) (data : Json) : Json × Nat :=
  match parse_webhook_message data with
  | none => (.obj [("status", .str "no_message")], 0)
  | some message_data =>
    let from_number := message_data.sender
    let message_text := message_data.text
    match pySlice50 message_text with
    | .error e => (.obj [("status", .str "error"), ("error", .str e)], 0)
    | .ok _ =>
      let response_text := generate_response emergency_number message_text
      if pyTruthyStr response_text then
        match send_text_message_dyn post from_number response_text with
        | .ok result =>
          (.obj [("status", .str "processed"), ("sent", result)], 1)
        | .error e =>
          (.obj [("status", .str "error"), ("error", .str e)], 0)
      else
        (.obj [("status", .str "processed"), ("sent", .bool false)], 0)

/-! ### `app/main.py` — authentication helpers and endpoints -/

/-- Models CPython's `secrets.compare_digest` on byte sequences: a
constant-time comparison that accumulates the XOR of every aligned pair
with no early exit and also requires equal lengths. -/
def compare_digest (a b : List Nat) : Bool :=
  (a.length == b.length) &&
    ((a.zip b).foldl (fun acc p => acc ||| (p.1 ^^^ p.2)) 0 == 0)

/-- The number of byte-comparison loop iterations `compare_digest`
performs: one per aligned pair, regardless of contents. -/
def compare_digest_cost (a b : List Nat) : Nat :=
  (a.zip b).foldl (fun acc _ => acc + 1) 0

/-- `verify_admin_api_key`: the header value is `None` when the `X-API-Key`
header is absent; `if not api_key or not settings.admin_api_key: return
False`, otherwise `secrets.compare_digest(api_key, settings.admin_api_key)`.
The configured secret is the second argument. -/
def verify_admin_api_key (api_key : Option String) (admin_api_key : String) : Bool :=
  match api_key with
  | none => false
  | some k =>
    if !pyTruthyStr k || !pyTruthyStr admin_api_key then false
    else compare_digest (strBytes k) (strBytes admin_api_key)

/-- `verify_webhook` (GET `/webhook`): query parameters are `none` when
absent (`query_params.get`), and in Python `None == "subscribe"` is
`False`.  Success returns the challenge as the plain-text body
(`Response(content=None)` sends an empty body); failure raises
`HTTPException(403)`. -/
def verify_webhook (verify_token : String)
    (hub_mode hub_verify_token hub_challenge : Option String) :
    Except Nat String :=
  if hub_mode == some "subscribe" && hub_verify_token == some verify_token then
    .ok (hub_challenge.getD "")
  else
    .error 403

/-- `receive_message` (POST `/webhook`): `body` is the outcome of `await
request.json()` (its failure is caught by the handler's `except`, which
returns a 200 `{"status": "error", ...}` to prevent upstream retries);
`processorReady` is whether the global `message_processor` was
initialized.  The result is the HTTP status code and the response body. -/
def receive_message (emergency_number : String)
    (post : Json → Except String HttpResponse)
    (body : Except String Json) (processorReady : Bool) : Nat × Json :=
  match body with
  | .error e => (200, .obj [("status", .str "error"), ("message", .str e)])
  | .ok data =>
    if processorReady then
      (200, .obj [("status", .str "success"),
                  ("result", (process_webhook emergency_number post data).1)])
    else
      (200, .obj [("status", .str "error"),
                  ("message", .str "Service not ready")])

/-- `send_broadcast_alert` (POST `/admin/broadcast`).  The
`admin_auth_required` dependency runs first and raises `HTTPException(401)`
on a failed key check, before the body is read.  Then the body is parsed
(`request.json()` failure reaches the generic `except Exception` handler,
a 500), `message = data.get("message")` is checked for truthiness
(`HTTPException(400)` when falsy), and only then is
`admin_alert_service.send_broadcast` awaited — `broadcastResult` abstracts
its result (the service lives in `admin_alert_service.py`, outside the
embedded core) and the final `Nat` counts how many times it was invoked. -/
def send_broadcast_alert (api_key : Option String) (admin_api_key : String)
    (body : Except String Json) (svcReady : Bool) (broadcastResult : Json) :
    Nat × Json × Nat :=
  if !verify_admin_api_key api_key admin_api_key then
    (401, .str "Invalid or missing API key", 0)
  else
    match body with
    | .error e => (500, .str e, 0)
    | .ok data =>
      match data.pyGet "message" with
      | .error e => (500, .str e, 0)
      | .ok message =>
        if !message.truthy then
          (400, .str "Message is required", 0)
        else if svcReady then
          (200, .obj [("status", .str "success"),
                      ("message", .str "Broadcast alert sent successfully"),
                      ("result", broadcastResult)], 1)
        else
          (503, .str "Alert service not available", 0)

/-! ### `send_alert.py` — `send_alert_with_retry` -/

/-- How one call of the retry loop ends: a returned response, the final
attempt's exception re-raised, or (for `max_retries = 0`) no attempt at
all (the `for` body never runs and the function returns `None`). -/
inductive RetryOutcome (R : Type) where
  | success (r : R) : RetryOutcome R
  | failure (e : String) : RetryOutcome R
  | noAttempt : RetryOutcome R

/-- The `for attempt in range(max_retries)` loop of
`send_alert_with_retry`.  `outcome attempt timeout` is the result of the
HTTP request of that attempt (`.error` = raised exception); `last` is
`max_retries - 1`.  Returns the loop's outcome, the timeout used by each
attempt in order, and the `2 ** attempt` backoff sleeps performed. -/
def sendAlertAux {R : Type} (outcome : Nat → Nat → Except String R)
    (timeout last : Nat) : Nat → Nat → RetryOutcome R × List Nat × List Nat
  | _, 0 => (.noAttempt, [], [])
  | attempt, remaining + 1 =>
    match outcome attempt timeout with
    | .ok r => (.success r, [timeout], [])
    | .error e =>
      if attempt == last then (.failure e, [timeout], [])
      else
        match sendAlertAux outcome timeout last (attempt + 1) remaining with
        | (res, touts, sleeps) => (res, timeout :: touts, 2 ^ attempt :: sleeps)

/-- `send_alert_with_retry` with its source defaults `max_retries = 3`,
`timeout = 120`. -/
def send_alert_with_retry {R : Type} (outcome : Nat → Nat → Except String R)
    (max_retries : Nat := 3) (timeout : Nat := 120) :
    RetryOutcome R × List Nat × List Nat :=
  sendAlertAux outcome timeout (max_retries - 1) 0 max_retries

/-! ### Concrete inputs used by witnesses and counterexamples -/

/-- The specification's end-to-end example event: one entry, one change,
one text message "Hello there" from sender "5551234" with id "m1". -/
def exampleEvent : Json :=
  .obj [("entry", .arr [
    .obj [("changes", .arr [
      .obj [("value", .obj [
        ("messages", .arr [
          .obj [("id", .str "m1"), ("from", .str "5551234"),
                ("type", .str "text"),
                ("text", .obj [("body", .str "Hello there")])]])])]])]])]

/-- A stand-in gateway reply used when exercising the pipeline on the
example event: the decoded body a successful send returns. -/
def stubSendResult : Json :=
  .obj [("messaging_product", .str "whatsapp"),
        ("messages", .arr [.obj [("id", .str "wamid.X")]])]

/-- A stand-in HTTP transport used when exercising the pipeline: every
POST is answered with status 200 and the decodable body `stubSendResult`. -/
def stubPost : Json → Except String HttpResponse :=
  fun _ => .ok ⟨200, .ok stubSendResult⟩


/-! ### Shared lemmas and claim theorems -/

set_option maxRecDepth 16384

theorem natOrEqZero (m n : Nat) : m ||| n = 0 ↔ m = 0 ∧ n = 0 := by
  constructor
  · intro h
    have hb : ∀ i, m.testBit i = false ∧ n.testBit i = false := by
      intro i
      have := congrArg (fun x => Nat.testBit x i) h
      simpa [Nat.testBit_or] using this
    exact ⟨Nat.eq_of_testBit_eq (by simp [fun i => (hb i).1]),
           Nat.eq_of_testBit_eq (by simp [fun i => (hb i).2])⟩
  · rintro ⟨rfl, rfl⟩; rfl

theorem foldl_or_xor_eq_zero (l : List (Nat × Nat)) (acc : Nat) :
    (l.foldl (fun a p => a ||| (p.1 ^^^ p.2)) acc = 0) ↔
      (acc = 0 ∧ ∀ p ∈ l, p.1 = p.2) := by
  induction l generalizing acc with
  | nil => simp
  | cons q l ih =>
    simp only [List.foldl_cons, ih, natOrEqZero, Nat.xor_eq_zero, List.mem_cons]
    constructor
    · rintro ⟨⟨h1, h2⟩, h3⟩
      exact ⟨h1, fun p hp => hp.elim (fun h => h ▸ h2) (h3 p)⟩
    · rintro ⟨h1, h2⟩
      exact ⟨⟨h1, h2 q (Or.inl rfl)⟩, fun p hp => h2 p (Or.inr hp)⟩

theorem eq_of_zip_eq {α : Type} (a : List α) (b : List α)
    (hlen : a.length = b.length) (h : ∀ p ∈ a.zip b, p.1 = p.2) : a = b := by
  induction a generalizing b with
  | nil => cases b <;> simp_all
  | cons x xs ih =>
    cases b with
    | nil => simp at hlen
    | cons y ys =>
      have hx : x = y := h (x, y) (by simp [List.zip])
      have : xs = ys := ih ys (by simpa using hlen)
        (fun p hp => h p (by simpa [List.zip] using Or.inr hp))
      simp [hx, this]

theorem charToNat_inj (a b : Char) (h : a.toNat = b.toNat) : a = b := by
  rw [← Char.ofNat_toNat a, ← Char.ofNat_toNat b, h]

theorem strBytes_inj (a b : String) (h : strBytes a = strBytes b) : a = b := by
  cases a with
  | mk da =>
    cases b with
    | mk db =>
      simp only [strBytes] at h
      have : da = db := by
        clear * - h
        induction da generalizing db with
        | nil => cases db <;> simp_all
        | cons c cs ih =>
          cases db with
          | nil => simp at h
          | cons d ds =>
            simp only [List.map_cons, List.cons.injEq] at h
            exact by simp [charToNat_inj c d h.1, ih ds h.2]
      simp [this]

theorem mem_zip_self {α : Type} (a : List α) (p : α × α) (hp : p ∈ a.zip a) :
    p.1 = p.2 := by
  induction a with
  | nil => simp [List.zip] at hp
  | cons x xs ih =>
    rcases (by simpa [List.zip] using hp : p = (x, x) ∨ p ∈ xs.zip xs) with h | h
    · simp [h]
    · exact ih h

theorem compare_digest_eq_iff (a b : List Nat) :
    compare_digest a b = true ↔ a = b := by
  simp only [compare_digest, Bool.and_eq_true, beq_iff_eq]
  constructor
  · rintro ⟨h1, h2⟩
    exact eq_of_zip_eq a b h1 ((foldl_or_xor_eq_zero _ 0).mp h2).2
  · rintro rfl
    refine ⟨rfl, (foldl_or_xor_eq_zero _ 0).mpr ⟨rfl, ?_⟩⟩
    intro p hp
    exact mem_zip_self _ p hp

theorem foldl_count (l : List (Nat × Nat)) (acc : Nat) :
    l.foldl (fun a _ => a + 1) acc = acc + l.length := by
  induction l generalizing acc with
  | nil => simp
  | cons p l ih => simp [List.foldl_cons, ih]; omega

theorem compare_digest_cost_eq (a b : List Nat) :
    compare_digest_cost a b = min a.length b.length := by
  simp [compare_digest_cost, foldl_count, List.length_zip]

theorem pyTruthyStr_of_ne (s : String) (h : s ≠ "") : pyTruthyStr s = true := by
  simp only [pyTruthyStr, bne_iff_ne, ne_eq]
  intro hlen
  apply h
  cases s with
  | mk d => cases d with
    | nil => rfl
    | cons c cs => simp [String.length] at hlen

/-- Claim C4: verify_admin_api_key returns false for a missing (None) or
empty candidate regardless of the configured secret, false whenever the
configured secret is empty, true for the candidate equal to a non-empty
configured secret, and for non-empty inputs it decides equality using a
constant-time byte comparison whose iteration count depends only on the
operand lengths, never on the position of the first mismatch. -/
theorem verify_admin_api_key_spec (secret cand a b c d : String)
    (hsec : secret ≠ "") (hac : a.length = c.length) (hbd : b.length = d.length) :
    verify_admin_api_key none secret = false ∧
    verify_admin_api_key (some "") secret = false ∧
    verify_admin_api_key (some cand) "" = false ∧
    verify_admin_api_key (some secret) secret = true ∧
    (cand ≠ "" → (verify_admin_api_key (some cand) secret = true ↔ cand = secret)) ∧
    compare_digest_cost (strBytes a) (strBytes b) =
      compare_digest_cost (strBytes c) (strBytes d) := by
  have hlen : ∀ s : String, (strBytes s).length = s.length := by
    intro s
    cases s with
    | mk d => simp [strBytes, String.length]
  refine ⟨rfl, rfl, ?_, ?_, ?_, ?_⟩
  · simp only [verify_admin_api_key]
    rw [show pyTruthyStr "" = false from rfl]
    simp
  · simp only [verify_admin_api_key, pyTruthyStr_of_ne secret hsec, Bool.not_true,
      Bool.or_false, Bool.false_or, if_neg]
    simp [compare_digest_eq_iff]
  · intro hc
    simp only [verify_admin_api_key, pyTruthyStr_of_ne secret hsec,
      pyTruthyStr_of_ne cand hc, Bool.not_true, Bool.or_self, Bool.false_or]
    simp only [if_neg (by simp : ¬(false = true))]
    rw [compare_digest_eq_iff]
    constructor
    · exact fun h => strBytes_inj _ _ h
    · rintro rfl; rfl
  · rw [compare_digest_cost_eq, compare_digest_cost_eq, hlen, hlen, hlen, hlen, hac, hbd]

theorem strMkData (s : String) : String.mk s.data = s := by
  cases s
  rfl

theorem mem_pyRemoveAll (c : Char) (s : String) (x : Char)
    (hx : x ∈ (pyRemoveAll c s).data) : (x != c) = true ∧ x ∈ s.data := by
  simp only [pyRemoveAll] at hx
  have := List.mem_filter.mp hx
  exact ⟨this.2, this.1⟩

theorem pyRemoveAll_eq_self (c : Char) (s : String)
    (h : ∀ x ∈ s.data, (x != c) = true) : pyRemoveAll c s = s := by
  cases s with
  | mk d =>
    simp only [pyRemoveAll]
    congr 1
    exact List.filter_eq_self.mpr h

/-- Claim C10: the recipient identifier that send_text_message places in
the gateway payload is the normalized form, which starts with exactly one
plus sign, contains no plus, space or hyphen after the first character,
and is a fixed point of the normalization (idempotence). -/
theorem normalizeRecipient_spec (to_ text : String) :
    (payloadFor to_ text).lookupKey "to" = some (.str (normalizeRecipient to_)) ∧
    (normalizeRecipient to_).data.head? = some '+' ∧
    (normalizeRecipient to_).data.count '+' = 1 ∧
    ((normalizeRecipient to_).data.tail.all
      (fun ch => ch != '+' && ch != ' ' && ch != '-')) = true ∧
    normalizeRecipient (normalizeRecipient to_) = normalizeRecipient to_ := by
  have hclean : ∀ x ∈ (pyRemoveAll '-' (pyRemoveAll ' ' (pyRemoveAll '+' to_))).data,
      (x != '+') = true ∧ (x != ' ') = true ∧ (x != '-') = true := by
    intro x hx
    obtain ⟨h3, hx2⟩ := mem_pyRemoveAll _ _ _ hx
    obtain ⟨h2, hx1⟩ := mem_pyRemoveAll _ _ _ hx2
    obtain ⟨h1, _⟩ := mem_pyRemoveAll _ _ _ hx1
    exact ⟨h1, h2, h3⟩
  set tc := pyRemoveAll '-' (pyRemoveAll ' ' (pyRemoveAll '+' to_)) with htc
  have hplus : '+' ∉ tc.data := by
    intro hmem
    have := (hclean '+' hmem).1
    simp at this
  have hbranch : normalizeRecipient to_ = "+" ++ tc := by
    simp only [normalizeRecipient, ← htc]
    split
    · rename_i xs heq
      rw [heq] at hplus
      simp at hplus
    · rfl
  have hdata : (normalizeRecipient to_).data = '+' :: tc.data := by
    rw [hbranch, String.data_append]
    rfl
  refine ⟨rfl, ?_, ?_, ?_, ?_⟩
  · rw [hdata]; rfl
  · rw [hdata, List.count_cons_self, List.count_eq_zero.mpr hplus]
  · rw [hdata]
    simp only [List.tail_cons, List.all_eq_true]
    intro x hx
    obtain ⟨h1, h2, h3⟩ := hclean x hx
    simp [h1, h2, h3]
  · have hstep1 : pyRemoveAll '+' ("+" ++ tc) = tc := by
      simp only [pyRemoveAll, String.data_append]
      show String.mk (List.filter _ ('+' :: tc.data)) = _
      rw [List.filter_cons_of_neg (by simp)]
      rw [List.filter_eq_self.mpr (fun x hx => (hclean x hx).1)]
    have hstep2 : pyRemoveAll ' ' tc = tc :=
      pyRemoveAll_eq_self _ _ (fun x hx => (hclean x hx).2.1)
    have hstep3 : pyRemoveAll '-' tc = tc :=
      pyRemoveAll_eq_self _ _ (fun x hx => (hclean x hx).2.2)
    rw [hbranch]
    conv_lhs => rw [normalizeRecipient]
    rw [hstep1, hstep2, hstep3]
    split
    · rename_i xs heq
      rw [heq] at hplus
      simp at hplus
    · rfl

/-- Claim C9: the webhook handshake succeeds (echoing the supplied
challenge verbatim, an absent challenge echoing as the empty body) exactly
when the mode parameter is "subscribe" and the token parameter equals the
configured verify-token; otherwise it rejects with HTTP 403 and echoes no
challenge. -/
theorem verify_webhook_spec (vt : String) (m t c : Option String) :
    (verify_webhook vt m t c = .ok (c.getD "") ↔ (m = some "subscribe" ∧ t = some vt)) ∧
    (¬(m = some "subscribe" ∧ t = some vt) → verify_webhook vt m t c = .error 403) := by
  by_cases h : m = some "subscribe" ∧ t = some vt
  · obtain ⟨h1, h2⟩ := h
    subst h1
    subst h2
    simp [verify_webhook]
  · constructor
    · constructor
      · intro hok
        by_contra
        rw [verify_webhook] at hok
        rw [if_neg] at hok
        · exact Except.noConfusion hok
        · simp only [Bool.and_eq_true, beq_iff_eq, Option.some.injEq]
          intro hc
          exact h ⟨by simp [hc.1], by simp [hc.2]⟩
      · intro hc
        exact absurd hc h
    · intro _
      rw [verify_webhook, if_neg]
      simp only [Bool.and_eq_true, beq_iff_eq, Option.some.injEq]
      intro hc
      exact h ⟨by simp [hc.1], by simp [hc.2]⟩

/-- Claim C7: every POST to the webhook delivery endpoint — including a
malformed body, whose parse failure is caught by the handler — yields HTTP
200 with a body whose status field is one of "success", "no_message" or
"error"; no error path produces a non-2xx status. -/
theorem receive_message_spec (em : String)
    (post : Json → Except String HttpResponse)
    (body : Except String Json) (ready : Bool) :
    (receive_message em post body ready).1 = 200 ∧
    ∃ s, (receive_message em post body ready).2.lookupKey "status" = some (.str s) ∧
      (s = "success" ∨ s = "no_message" ∨ s = "error") := by
  rcases body with e | data
  · exact ⟨rfl, "error", rfl, by simp⟩
  · cases ready
    · exact ⟨rfl, "error", rfl, by simp⟩
    · exact ⟨rfl, "success", rfl, by simp⟩

/-- Claim C8: an unauthenticated broadcast request is rejected with HTTP
401 before the dispatcher is invoked (zero broadcast calls), and an
authenticated request whose message field is missing or empty (falsy) is
rejected with HTTP 400, also with zero broadcast calls. -/
theorem send_broadcast_alert_spec (key : Option String) (secret : String)
    (body : Except String Json) (data msg : Json) (svc : Bool) (res : Json) :
    (verify_admin_api_key key secret = false →
      send_broadcast_alert key secret body svc res =
        (401, .str "Invalid or missing API key", 0)) ∧
    (verify_admin_api_key key secret = true → data.pyGet "message" = .ok msg →
      msg.truthy = false →
      send_broadcast_alert key secret (.ok data) svc res =
        (400, .str "Message is required", 0)) := by
  constructor
  · intro h
    simp [send_broadcast_alert, h]
  · intro hauth hget hfalsy
    simp [send_broadcast_alert, hauth, hget, hfalsy]

/-- Claim C6: send_text_message never lets an exception escape: a gateway
status in the range 200 to 299 returns the decoded response body, any
other status returns a failure value embedding the decoded error body, and
an undecodable body or a transport-level exception returns a failure value
embedding the exception text. -/
theorem send_text_message_spec (post : Json → Except String HttpResponse)
    (to_ text : String) (resp : HttpResponse) (j : Json) (e : String) :
    (post (payloadFor to_ text) = .ok resp → 200 ≤ resp.status_code →
      resp.status_code < 300 → resp.jsonBody = .ok j →
      send_text_message post to_ text = j) ∧
    (post (payloadFor to_ text) = .ok resp →
      ¬(200 ≤ resp.status_code ∧ resp.status_code < 300) → resp.jsonBody = .ok j →
      send_text_message post to_ text = .obj [("success", .bool false), ("error", j)]) ∧
    (post (payloadFor to_ text) = .ok resp → resp.jsonBody = .error e →
      send_text_message post to_ text = .obj [("success", .bool false), ("error", .str e)]) ∧
    (post (payloadFor to_ text) = .error e →
      send_text_message post to_ text = .obj [("success", .bool false), ("error", .str e)]) := by
  refine ⟨?_, ?_, ?_, ?_⟩
  · intro hpost h1 h2 hbody
    simp [send_text_message, hpost, hbody, if_pos (⟨h1, h2⟩ : _ ∧ _)]
  · intro hpost hnot hbody
    simp [send_text_message, hpost, hbody, if_neg hnot]
  · intro hpost hbody
    by_cases h : 200 ≤ resp.status_code ∧ resp.status_code < 300
    · simp [send_text_message, hpost, hbody, if_pos h]
    · simp [send_text_message, hpost, hbody, if_neg h]
  · intro hpost
    simp [send_text_message, hpost]

/-- Claim C5: send_alert_with_retry makes at most 3 attempts, each with
the default 120-second client timeout; when attempt k (counting from 0)
is the first to succeed, its response is returned after sleeps of 2^0 ...
2^(k-1) seconds between the failed attempts; when all attempts fail, the
final attempt failure is re-raised after sleeps of 1 and 2 seconds. -/
theorem send_alert_with_retry_spec {R : Type} (outcome : Nat → Nat → Except String R)
    (r : R) (e : String) (k : Nat) :
    (send_alert_with_retry outcome).2.1.length ≤ 3 ∧
    ((send_alert_with_retry outcome).2.1.all (fun t => t == 120)) = true ∧
    (k < 3 → outcome k 120 = .ok r →
      (∀ m, m < k → ∃ err, outcome m 120 = .error err) →
      send_alert_with_retry outcome =
        (.success r, List.replicate (k + 1) 120, (List.range k).map (fun n => 2 ^ n))) ∧
    ((∀ m, m < 2 → ∃ err, outcome m 120 = .error err) → outcome 2 120 = .error e →
      send_alert_with_retry outcome = (.failure e, [120, 120, 120], [1, 2])) := by
  refine ⟨?_, ?_, ?_, ?_⟩
  · rcases h0 : outcome 0 120 with e0 | r0 <;>
      rcases h1 : outcome 1 120 with e1 | r1 <;>
      rcases h2 : outcome 2 120 with e2 | r2 <;>
      simp [send_alert_with_retry, sendAlertAux, h0, h1, h2]
  · rcases h0 : outcome 0 120 with e0 | r0 <;>
      rcases h1 : outcome 1 120 with e1 | r1 <;>
      rcases h2 : outcome 2 120 with e2 | r2 <;>
      simp [send_alert_with_retry, sendAlertAux, h0, h1, h2]
  · intro hk hok hprev
    match k, hk with
    | 0, _ =>
      simp [send_alert_with_retry, sendAlertAux, hok]
    | 1, _ =>
      obtain ⟨e0, h0⟩ := hprev 0 (by omega)
      simp [send_alert_with_retry, sendAlertAux, h0, hok, List.replicate, List.range,
        List.range.loop]
    | 2, _ =>
      obtain ⟨e0, h0⟩ := hprev 0 (by omega)
      obtain ⟨e1, h1⟩ := hprev 1 (by omega)
      simp [send_alert_with_retry, sendAlertAux, h0, h1, hok, List.replicate, List.range,
        List.range.loop]
  · intro hprev h2
    obtain ⟨e0, h0⟩ := hprev 0 (by omega)
    obtain ⟨e1, h1⟩ := hprev 1 (by omega)
    simp [send_alert_with_retry, sendAlertAux, h0, h1, h2]

/-- Claim C2: generate_response on a string lower-cases and trims it,
then tests the keyword categories in the fixed order greeting, emergency,
symptom, medicine, facility with case-insensitive substring matching,
returning the first matching category reply and the generic menu fallback
when none matches (it equals the specification ordered-category router on
every input); in particular "helper" draws the emergency reply because it
contains "help", and emergency keywords take precedence over the symptom,
medicine and facility categories. -/
theorem generate_response_spec (emergency_number s : String) :
    generate_response emergency_number (.str s) = route_spec emergency_number s ∧
    generate_response emergency_number (.str "helper") = emergencyReply emergency_number := by
  constructor
  · simp only [generate_response, route_spec, routeCategories, List.find?]
    rcases hg : ["hi", "hello", "hey", "namaste"].any
        (fun w => pyIn w (pyStrip (pyLower s))) with _ | _ <;>
      rcases he : ["emergency", "urgent", "critical", "help"].any
        (fun w => pyIn w (pyStrip (pyLower s))) with _ | _ <;>
      rcases hs : ["symptom", "pain", "fever", "cough", "headache"].any
        (fun w => pyIn w (pyStrip (pyLower s))) with _ | _ <;>
      rcases hm : ["medicine", "medication", "drug", "tablet"].any
        (fun w => pyIn w (pyStrip (pyLower s))) with _ | _ <;>
      rcases hh : ["hospital", "clinic", "doctor", "nearby"].any
        (fun w => pyIn w (pyStrip (pyLower s))) with _ | _ <;>
      simp [hg, he, hs, hm, hh]
  · rfl

theorem getD_ok (j : Json) (k : String) (d v : Json) (h : j.getD k d = .ok v) :
    ∃ kvs, j = .obj kvs ∧ (kvs.lookup k).getD d = v := by
  cases j <;> simp [Json.getD] at h
  case obj kvs => exact ⟨kvs, rfl, h⟩

theorem index0_cases (j x : Json) (h : j.index 0 = .ok x) :
    (∃ tail, j = .arr (x :: tail)) ∨ (∃ c, x = .str (String.mk [c])) := by
  cases j <;> simp [Json.index] at h
  case arr xs =>
    cases xs with
    | nil => simp at h
    | cons y ys =>
      left
      refine ⟨ys, ?_⟩
      simp at h
      simp [h]
  case str s =>
    rcases hd : s.data with _ | ⟨c, cs⟩ <;> rw [hd] at h
    · simp at h
    · simp at h
      right
      exact ⟨c, by simp [← h]⟩

theorem parseInner_some_hasUserMessages (data : Json) (m : NormalizedMessage)
    (h : parseInner data = .ok (some m)) : hasUserMessages data = true := by
  rw [parseInner] at h
  split at h
  next => exact absurd h (by simp)
  next entries hE =>
  split at h
  next => exact absurd h (by simp)
  next hEt =>
  split at h
  next => exact absurd h (by simp)
  next entry hE0 =>
  split at h
  next => exact absurd h (by simp)
  next changes hC =>
  split at h
  next => exact absurd h (by simp)
  next hCt =>
  split at h
  next => exact absurd h (by simp)
  next change0 hC0 =>
  split at h
  next => exact absurd h (by simp)
  next value hV =>
  split at h
  next => exact absurd h (by simp)
  next messages hM =>
  split at h
  next => exact absurd h (by simp)
  next contacts hK =>
  split at h
  next => exact absurd h (by simp)
  next hMt =>
  split at h
  next => exact absurd h (by simp)
  next message hM0 =>
  split at h
  next => exact absurd h (by simp)
  next contact hCon =>
  split at h
  next => exact absurd h (by simp)
  next message_id hId =>
  clear h
  -- structural facts from the successful accessor chain
  rw [Bool.not_eq_true', Bool.not_eq_false] at hEt hCt hMt
  obtain ⟨kvs, rfl, hEeq⟩ := getD_ok _ _ _ _ hE
  obtain ⟨ekvs, hentry, hCeq⟩ := getD_ok _ _ _ _ hC
  obtain ⟨ckvs, hchange0, hVeq⟩ := getD_ok _ _ _ _ hV
  obtain ⟨vkvs, hvalue, hMeq⟩ := getD_ok _ _ _ _ hM
  obtain ⟨mkvs, hmessage, _⟩ := getD_ok _ _ _ _ hId
  have hEarr : ∃ tail, entries = .arr (entry :: tail) := by
    rcases index0_cases _ _ hE0 with hcase | ⟨c, hc⟩
    · exact hcase
    · rw [hc] at hentry; exact absurd hentry (by simp)
  obtain ⟨t1, rfl⟩ := hEarr
  have hCarr : ∃ tail, changes = .arr (change0 :: tail) := by
    rcases index0_cases _ _ hC0 with hcase | ⟨c, hc⟩
    · exact hcase
    · rw [hc] at hchange0; exact absurd hchange0 (by simp)
  obtain ⟨t2, rfl⟩ := hCarr
  have hMarr : ∃ tail, messages = .arr (message :: tail) := by
    rcases index0_cases _ _ hM0 with hcase | ⟨c, hc⟩
    · exact hcase
    · rw [hc] at hmessage; exact absurd hmessage (by simp)
  obtain ⟨t3, rfl⟩ := hMarr
  -- each key on the path is present (otherwise a falsy default blocks the chain)
  have hElook : kvs.lookup "entry" = some (.arr (entry :: t1)) := by
    rcases hl : kvs.lookup "entry" with _ | ev
    · rw [hl] at hEeq
      simp at hEeq
    · rw [hl] at hEeq
      simp only [Option.getD] at hEeq
      rw [hEeq]
  have hClook : ekvs.lookup "changes" = some (.arr (change0 :: t2)) := by
    rcases hl : ekvs.lookup "changes" with _ | cv
    · rw [hl] at hCeq
      simp at hCeq
    · rw [hl] at hCeq
      simp only [Option.getD] at hCeq
      rw [hCeq]
  have hVlook : ckvs.lookup "value" = some value := by
    rcases hl : ckvs.lookup "value" with _ | vv
    · rw [hl] at hVeq
      simp only [Option.getD] at hVeq
      rw [← hVeq] at hvalue
      have hnil : vkvs = [] := by
        injection hvalue with hv
        exact hv.symm
      rw [hnil] at hMeq
      simp at hMeq
    · rw [hl] at hVeq
      simp only [Option.getD] at hVeq
      rw [hVeq]
  have hMlook : vkvs.lookup "messages" = some (.arr (message :: t3)) := by
    rcases hl : vkvs.lookup "messages" with _ | mv
    · rw [hl] at hMeq
      simp at hMeq
    · rw [hl] at hMeq
      simp only [Option.getD] at hMeq
      rw [hMeq]
  simp only [hasUserMessages, Json.lookupKey, hElook, Option.some_bind, Json.arrHead,
    hentry, hClook, hchange0, hVlook, hvalue, hMlook]

/-- Claim C3: whenever the nested path entry[0].changes[0].value of the
payload carries no non-empty messages array — including missing keys or
empty arrays at any nesting level — parse_webhook_message returns None;
it never throws, every internally raised exception being caught and
converted to None. -/
theorem parse_webhook_message_none (data : Json)
    (h : hasUserMessages data = false) : parse_webhook_message data = none := by
  rw [parse_webhook_message]
  rcases hp : parseInner data with e | r
  · rfl
  · rcases r with _ | msg
    · rfl
    · exact absurd (parseInner_some_hasUserMessages data msg hp) (by simp [h])

theorem emergencyReply_truthy (em : String) : pyTruthyStr (emergencyReply em) = true := by
  simp only [pyTruthyStr, emergencyReply, String.length_append, bne_iff_ne, ne_eq]
  intro h
  exact absurd (Nat.add_eq_zero.mp h).2 (by decide)

theorem generate_response_truthy (em : String) (m : Json) :
    pyTruthyStr (generate_response em m) = true := by
  cases m <;> simp only [generate_response] <;> try decide
  case str s =>
    split
    · decide
    split
    · exact emergencyReply_truthy em
    split
    · decide
    split
    · decide
    split
    · decide
    · decide

/-- Claim C1 (amended): when parsing yields no message the orchestrator
makes zero send attempts and returns status no_message.  When parsing
yields a message record whose text is sliceable (the logging line slices
it) and whose sender is a string, it makes exactly one network send
attempt and returns status processed with the sent field holding the
outbound send result value (rather than the boolean true literal).  When
the record text is not sliceable (TypeError at the log slice) or the
sender is not a string (AttributeError in the recipient normalization,
before the transport call), the except handler returns status error with
zero network send attempts. -/
theorem process_webhook_send_accounting (em : String)
    (post : Json → Except String HttpResponse) (data : Json)
    (md : NormalizedMessage) (sender : String) (sl : Json) (e : String) :
    (parse_webhook_message data = none →
      process_webhook em post data = (.obj [("status", .str "no_message")], 0)) ∧
    (parse_webhook_message data = some md → pySlice50 md.text = .ok sl →
      md.sender = .str sender →
      process_webhook em post data =
        (.obj [("status", .str "processed"),
               ("sent", send_text_message post sender
                          (generate_response em md.text))], 1)) ∧
    (parse_webhook_message data = some md → pySlice50 md.text = .error e →
      process_webhook em post data =
        (.obj [("status", .str "error"), ("error", .str e)], 0)) ∧
    (parse_webhook_message data = some md → pySlice50 md.text = .ok sl →
      (∀ s, md.sender ≠ .str s) →
      process_webhook em post data =
        (.obj [("status", .str "error"),
               ("error", .str "AttributeError: no attribute replace")], 0)) := by
  refine ⟨?_, ?_, ?_, ?_⟩
  · intro h
    simp [process_webhook, h]
  · intro h hsl hsender
    simp [process_webhook, h, hsl, hsender, send_text_message_dyn,
      generate_response_truthy]
  · intro h hsl
    simp [process_webhook, h, hsl]
  · intro h hsl hns
    rcases hs : md.sender with _ | b | s | n | xs | kvs
    · simp [process_webhook, h, hsl, hs, send_text_message_dyn,
        generate_response_truthy]
    · simp [process_webhook, h, hsl, hs, send_text_message_dyn,
        generate_response_truthy]
    · exact absurd hs (hns s)
    · simp [process_webhook, h, hsl, hs, send_text_message_dyn,
        generate_response_truthy]
    · simp [process_webhook, h, hsl, hs, send_text_message_dyn,
        generate_response_truthy]
    · simp [process_webhook, h, hsl, hs, send_text_message_dyn,
        generate_response_truthy]

/-- Claim C1 counterexample: on the specification end-to-end example
event the orchestrator does not return the record with sent equal to the
boolean true — the sent field holds the send result object instead. -/
theorem process_webhook_sent_not_bool_true :
    process_webhook "112" stubPost exampleEvent ≠
      (.obj [("status", .str "processed"), ("sent", .bool true)], 1) := by
  have hres : process_webhook "112" stubPost exampleEvent =
      (.obj [("status", .str "processed"), ("sent", stubSendResult)], 1) := rfl
  rw [hres]
  intro hcontra
  simp [stubSendResult] at hcontra

/-- Witness for C1: the example event is parsed, routed and posted to the
gateway exactly once, the sent field holding the decoded stub body. -/
theorem process_webhook_send_accounting_witness :
    process_webhook "112" stubPost exampleEvent =
      (.obj [("status", .str "processed"),
             ("sent", send_text_message stubPost "5551234"
               (generate_response "112" (.str "Hello there")))], 1) :=
  (process_webhook_send_accounting "112" stubPost exampleEvent
    ⟨.str "m1", .str "5551234", .null, .str "text", .str "Hello there",
     .str "Unknown"⟩ "5551234" (.str "Hello there") "e").2.1 rfl rfl rfl

/-- Witness for C3 at a payload with an empty entry list. -/
theorem parse_webhook_message_none_witness :
    hasUserMessages (.obj [("entry", .arr [])]) = false ∧
    parse_webhook_message (.obj [("entry", .arr [])]) = none :=
  ⟨rfl, parse_webhook_message_none _ rfl⟩

/-- Witness for C4 at a concrete non-empty secret. -/
theorem verify_admin_api_key_spec_witness :
    verify_admin_api_key (some "sk") "sk" = true :=
  (verify_admin_api_key_spec "sk" "x" "ab" "cd" "ef" "gh" (by decide) rfl rfl).2.2.2.1

/-- Witness for C5: a gateway failing twice then succeeding yields the
response with exactly 3 attempts and backoff sleeps of 1 then 2. -/
theorem send_alert_with_retry_spec_witness :
    send_alert_with_retry
        (fun n _ => if n < 2 then Except.error "boom" else Except.ok (42 : Nat)) =
      (.success 42, List.replicate 3 120, (List.range 2).map (fun n => 2 ^ n)) :=
  (send_alert_with_retry_spec
    (fun n _ => if n < 2 then Except.error "boom" else Except.ok (42 : Nat))
    42 "e" 2).2.2.1 (by omega) rfl
    (fun m hm => ⟨"boom", by
      match m, hm with
      | 0, _ => rfl
      | 1, _ => rfl⟩)

/-- Witness for C6 at a 200-status gateway response. -/
theorem send_text_message_spec_witness :
    send_text_message (fun _ => Except.ok ⟨200, Except.ok (Json.str "ok")⟩)
      "+1 555-1234" "hi" = Json.str "ok" :=
  (send_text_message_spec (fun _ => Except.ok ⟨200, Except.ok (Json.str "ok")⟩)
    "+1 555-1234" "hi" ⟨200, Except.ok (Json.str "ok")⟩ (Json.str "ok") "e").1
    rfl (by decide) (by decide) rfl

/-- Witness for C8: a missing key is rejected 401 and an authenticated
empty-message body is rejected 400, with zero broadcast calls each. -/
theorem send_broadcast_alert_spec_witness :
    send_broadcast_alert none "sk" (.ok (Json.obj [])) true .null =
      (401, .str "Invalid or missing API key", 0) ∧
    send_broadcast_alert (some "sk") "sk" (.ok (Json.obj [])) true .null =
      (400, .str "Message is required", 0) :=
  ⟨(send_broadcast_alert_spec none "sk" (.ok (Json.obj []))
      (Json.obj []) Json.null true .null).1 rfl,
   (send_broadcast_alert_spec (some "sk") "sk" (.ok (Json.obj []))
      (Json.obj []) Json.null true .null).2 rfl rfl rfl⟩

/-- Witness for C9: the handshake echoes "abc123" on the correct token
and rejects the wrong token with 403. -/
theorem verify_webhook_spec_witness :
    verify_webhook "vt" (some "subscribe") (some "vt") (some "abc123") = .ok "abc123" ∧
    verify_webhook "vt" (some "subscribe") (some "wrong") (some "abc123") = .error 403 :=
  ⟨(verify_webhook_spec "vt" (some "subscribe") (some "vt") (some "abc123")).1.mpr
      ⟨rfl, rfl⟩,
   (verify_webhook_spec "vt" (some "subscribe") (some "wrong") (some "abc123")).2
      (by decide)⟩
